import Mathlib

/-!
Shallow embedding of the lesson-plan workflow of `main.py` (Muhammadhuzaifa20/edteck).

The workflow threads a single `State` record through a fixed sequence of stage
functions; the only cycle is the populate-stage / advance-stage loop, guarded by
`should_continue_stages`.  External effects are made explicit parameters:
* every ReasonerAPI call result is an `Except ApiError …` argument (the Python
  `try/except Exception` around each call becomes a `match` on that argument);
* every human (CLI `input`) answer is a `String` (or, for the per-activity
  approval loop, a `Nat → Bool` decision function) argument.
Python dicts keep insertion order and `d[k] = v` replaces in place, which
`dictInsert` mirrors on an association list; Python truthiness of an optional
string (`if not current_stage`) is `truthy`.
-/

namespace Edteck

/-- Errors a ReasonerAPI call can raise (`requests` exceptions; `raise_for_status`
turns a 404 into an HTTPError, modelled as `notFound`). The Python code never
inspects the exception, only catches it. -/
inductive ApiError where
  | notFound
  | timeout
  | serverError
  | connectionError
  deriving DecidableEq, Repr

/-- An activity item as used by the workflow (`{"type": …, "title": …}`); further
keys of the JSON payload are irrelevant to the workflow logic. -/
structure Activity where
  type : String
  title : String
  deriving DecidableEq, Repr

/-- A template recommendation record.  The fallback value built in
`stage1_recommend_template` is `{"template": "5E", "confidence": 0}` (Python int 0,
no rationale key); the confidence is stored and printed, never computed with, so
an integer-valued model of the numeric field is faithful for these claims. -/
structure Recommendation where
  template : String
  confidence : Int
  rationale : Option String
  deriving DecidableEq, Repr

/-- The record assembled by `stage3_generate_output`. -/
structure Output where
  template : Option String
  stages : List (String × List Activity)
  student_id : String
  grade : String
  subject : String
  slos : List String
  deriving DecidableEq, Repr

/-- The `State` TypedDict of `main.py`. -/
structure State where
  student_id : String
  student_info : List (String × String)
  grade : String
  subject : String
  slos : List String
  pre_slos : List String
  template_options : List String
  chosen_template : Option String
  template_recommendation : Option Recommendation
  template_stages : List String
  template_approved : Option Bool
  template_adjustments : List String
  current_stage : Option String
  stage_activities : List (String × List Activity)
  is_complete : Bool
  final_output : Option Output
  deriving DecidableEq, Repr

/-- Python dict lookup `d.get(k)` on an insertion-ordered association list
(the key occurs at most once, so first-match lookup is dict lookup). -/
def dictGet : List (String × List Activity) → String → Option (List Activity)
  | [], _ => none
  | p :: d, k => if p.1 == k then some p.2 else dictGet d k

/-- Python dict assignment `d[k] = v`: replaces the value in place when the key
exists (keys are unique in a dict, so replacing the first hit suffices), appends
at the end otherwise — insertion order is preserved either way. -/
def dictInsert : List (String × List Activity) → String → List Activity →
    List (String × List Activity)
  | [], k, v => [(k, v)]
  | p :: d, k, v => if p.1 == k then (k, v) :: d else p :: dictInsert d k v

/-- Python truthiness of an optional string: `None` and `""` are falsy. -/
def truthy : Option String → Bool
  | none => false
  | some c => !(c == "")

/-- Python `str.strip()` (whitespace on both ends; ASCII whitespace suffices here). -/
def pyStrip (s : String) : String :=
  ⟨((s.data.dropWhile Char.isWhitespace).reverse.dropWhile Char.isWhitespace).reverse⟩

/-- Python `str.upper()`: character-wise ASCII case mapping. -/
def pyUpper (s : String) : String := ⟨s.data.map Char.toUpper⟩

/-- Python `str.lower()`: character-wise ASCII case mapping. -/
def pyLower (s : String) : String := ⟨s.data.map Char.toLower⟩

/-- Python `str.split(",")`, character by character. -/
def splitCommaAux : List Char → List Char → List String
  | [], acc => [⟨acc.reverse⟩]
  | c :: rest, acc =>
      if c == ',' then ⟨acc.reverse⟩ :: splitCommaAux rest []
      else splitCommaAux rest (c :: acc)

/-- Python `str.split(",")`. -/
def pySplitComma (s : String) : List String := splitCommaAux s.data []

/-- The context payload returned by `ReasonerAPI.fetch_context` (after the
`.get(…, default)` projections of `stage1_fetch_context`). -/
structure Context where
  student_info : List (String × String)
  grade : String
  subject : String
  slos : List String
  pre_slos : List String
  deriving DecidableEq, Repr

/-- The placeholder catalog installed by `stage1_fetch_context` on both branches. -/
def templateCatalog : List String := ["5E", "7E", "PBL", "Dynamic"]

/-- The template names accepted by `stage1_choose_template` (a Python set literal). -/
def templateEnum : List String := ["5E", "7E", "PBL", "DYNAMIC"]

/-- `stage1_fetch_context`: the whole body is inside `try`, and
`except Exception` returns the prior state plus only `template_options`. -/
def stage1_fetch_context (ctxRes : Except ApiError Context) (s : State) : State :=
  match ctxRes with
  | .ok c =>
      { s with student_info := c.student_info, grade := c.grade, subject := c.subject,
               slos := c.slos, pre_slos := c.pre_slos, template_options := templateCatalog }
  | .error _ => { s with template_options := templateCatalog }

/-- `stage1_recommend_template`: on any collaborator failure substitutes
`{"template": "5E", "confidence": 0}`. -/
def stage1_recommend_template (recRes : Except ApiError Recommendation) (s : State) : State :=
  match recRes with
  | .ok r => { s with template_recommendation := some r }
  | .error _ =>
      { s with template_recommendation := some { template := "5E", confidence := 0, rationale := none } }

/-- `stage1_choose_template`: `input(...).strip() or rec.get("template","5E")`,
then `.upper()`, then membership in the enum set with fallback `"5E"`. -/
def stage1_choose_template (humanInput : String) (s : State) : State :=
  let recTemplate := match s.template_recommendation with
    | some r => r.template
    | none => "5E"
  let stripped := pyStrip humanInput
  let chosen0 := if stripped == "" then recTemplate else stripped
  let chosen1 := pyUpper chosen0
  let chosen := if templateEnum.contains chosen1 then chosen1 else "5E"
  { s with chosen_template := some chosen }

/-- The hardcoded fallback stage lists of `init_template`. -/
def fallbackStages (template : String) : List String :=
  if template == "5E" then ["Engage", "Explore", "Explain", "Elaborate", "Evaluate"]
  else if template == "7E" then
    ["Elicit", "Engage", "Explore", "Explain", "Elaborate", "Evaluate", "Extend"]
  else if template == "PBL" then ["Challenge", "Investigate", "Create", "Debrief"]
  else []

/-- `init_template`: fetches the template definition (`definition.get("stages", [])`);
`except Exception` falls back to the hardcoded per-template stage list. -/
def init_template (defRes : Except ApiError (List String)) (s : State) : State :=
  let template := s.chosen_template.getD "5E"
  match defRes with
  | .ok stages => { s with template_stages := stages }
  | .error _ => { s with template_stages := fallbackStages template }

/-- `stage2_template_approval`: approved unless the stripped, lowercased answer is "n". -/
def stage2_template_approval (ans : String) (s : State) : State :=
  { s with template_approved := some (!(pyLower (pyStrip ans) == "n")) }

/-- The list comprehension `[s.strip() for s in raw.split(",") if s.strip()]`. -/
def parseStages (raw : String) : List String :=
  (pySplitComma raw).filterMap (fun t => if pyStrip t == "" then none else some (pyStrip t))

/-- `stage2_template_adjustment`: on answer "y" the comma-separated human list
wholesale replaces `template_stages`; otherwise only `template_adjustments := []`. -/
def stage2_template_adjustment (ans : String) (raw : String) (s : State) : State :=
  if pyLower (pyStrip ans) == "y" then
    let new_stages := parseStages raw
    { s with template_stages := new_stages, template_adjustments := new_stages }
  else { s with template_adjustments := [] }

/-- `stage2_prepare_stages`: cursor to the first stage (or `None` when empty). -/
def stage2_prepare_stages (s : State) : State :=
  { s with current_stage := s.template_stages.head? }

/-- The default activity substituted when `propose_activities` fails. -/
def defaultActivity (stage : String) : Activity :=
  { type := "discussion", title := "Default activity for " ++ stage }

/-- The per-activity HITL approval loop of `stage2_populate_stage`: activity `i`
is kept unless its answer is "n" (`dec i = false` models answering "n"). -/
def approvedOf (actRes : Except ApiError (List Activity)) (dec : Nat → Bool)
    (stage : String) : List Activity :=
  let activities := match actRes with
    | .ok acts => acts
    | .error _ => [defaultActivity stage]
  (activities.enum.filter (fun p => dec p.1)).map (·.2)

/-- `stage2_populate_stage`: no-op when the cursor is falsy; otherwise writes the
approved subset under the cursor's stage name (`current_activities[current_stage] = approved`). -/
def stage2_populate_stage (actRes : Except ApiError (List Activity)) (dec : Nat → Bool)
    (s : State) : State :=
  match s.current_stage with
  | none => s
  | some c =>
      if c == "" then s
      else { s with stage_activities := dictInsert s.stage_activities c (approvedOf actRes dec c) }

/-- `stage2_next_stage`: looks up the FIRST index of the cursor in
`template_stages` (`stages.index`), advances to the next element when that index
is not the last, and otherwise (or when the cursor is falsy / not a member)
clears the cursor. -/
def stage2_next_stage (s : State) : State :=
  match s.current_stage with
  | some c =>
      if !(c == "") && s.template_stages.contains c then
        if s.template_stages.indexOf c < s.template_stages.length - 1 then
          { s with current_stage := some (s.template_stages.getD (s.template_stages.indexOf c + 1) "") }
        else { s with current_stage := none }
      else { s with current_stage := none }
  | none => { s with current_stage := none }

/-- `stage3_check_completion`:
`complete = bool(stages) and all(stage in activities and activities[stage] for stage in stages)`. -/
def stage3_check_completion (s : State) : State :=
  let stages := s.template_stages
  let complete := !stages.isEmpty &&
    stages.all (fun st => match dictGet s.stage_activities st with
      | some l => !l.isEmpty
      | none => false)
  { s with is_complete := complete }

/-- `stage3_generate_output`: assembles the final record in `template_stages` order. -/
def stage3_generate_output (s : State) : State :=
  let output : Output :=
    { template := s.chosen_template,
      stages := s.template_stages.map (fun st => (st, (dictGet s.stage_activities st).getD [])),
      student_id := s.student_id, grade := s.grade, subject := s.subject, slos := s.slos }
  { s with final_output := some output }

/-- The conditional-edge predicate after `stage2_next_stage`. -/
def should_continue_stages (s : State) : String :=
  if truthy s.current_stage then "continue" else "complete"

/-- The populate-stage / advance-stage cycle of the graph, with explicit fuel.
Iteration `k` consumes the `k`-th collaborator response `oA k` and the `k`-th
block of human decisions `oD k`; the loop exits exactly when the conditional
edge selects "complete". -/
def stageLoop (oA : Nat → Except ApiError (List Activity)) (oD : Nat → Nat → Bool) :
    Nat → Nat → State → State
  | _, 0, s => s
  | k, fuel + 1, s =>
      if should_continue_stages (stage2_next_stage (stage2_populate_stage (oA k) (oD k) s))
          == "continue" then
        stageLoop oA oD (k + 1) fuel (stage2_next_stage (stage2_populate_stage (oA k) (oD k) s))
      else stage2_next_stage (stage2_populate_stage (oA k) (oD k) s)

/-- The cursor value seen by each `stage2_populate_stage` call of the loop, in order. -/
def loopTrace (oA : Nat → Except ApiError (List Activity)) (oD : Nat → Nat → Bool) :
    Nat → Nat → State → List (Option String)
  | _, 0, _ => []
  | k, fuel + 1, s =>
      s.current_stage ::
        (if should_continue_stages (stage2_next_stage (stage2_populate_stage (oA k) (oD k) s))
            == "continue" then
          loopTrace oA oD (k + 1) fuel (stage2_next_stage (stage2_populate_stage (oA k) (oD k) s))
        else [])

/-- `stage2_prepare_stages` followed by the loop: the stage-iteration fragment of the graph. -/
def runStages (oA : Nat → Except ApiError (List Activity)) (oD : Nat → Nat → Bool)
    (fuel : Nat) (s : State) : State :=
  stageLoop oA oD 0 fuel (stage2_prepare_stages s)

/-- The populate-call cursor trace of the stage-iteration fragment. -/
def runTrace (oA : Nat → Except ApiError (List Activity)) (oD : Nat → Nat → Bool)
    (fuel : Nat) (s : State) : List (Option String) :=
  loopTrace oA oD 0 fuel (stage2_prepare_stages s)

/-- A closed sample state (the `initial_state` literal of `main.py`). -/
def initialState : State :=
  { student_id := "student_123", student_info := [], grade := "", subject := "",
    slos := [], pre_slos := [], template_options := [], chosen_template := none,
    template_recommendation := none, template_stages := [], template_approved := none,
    template_adjustments := [], current_stage := none, stage_activities := [],
    is_complete := false, final_output := none }

end Edteck

namespace Edteck

/-! ### Concrete sample data used by witnesses and counterexamples -/

/-- A collaborator that proposes no activities (every response succeeds with `[]`). -/
def oracleEmpty : Nat → Except ApiError (List Activity) := fun _ => Except.ok []

/-- A human that approves every proposed activity. -/
def approveAll : Nat → Nat → Bool := fun _ _ => true

/-- A sample activity item. -/
def sampleActivity : Activity := { type := "discussion", title := "t" }

/-- A collaborator that proposes exactly `sampleActivity` each time. -/
def oracleOne : Nat → Except ApiError (List Activity) := fun _ => Except.ok [sampleActivity]

/-- A human that approves everything on the first populate call and rejects
everything afterwards. -/
def approveFirstOnly : Nat → Nat → Bool := fun k _ => k == 0

/-- A state whose stage sequence repeats the name "A" around "B". -/
def stateDupABA : State :=
  { initialState with template_stages := ["A", "B", "A"], current_stage := some "A" }

/-- A state whose stage sequence is the duplicated name "A". -/
def stateDupAA : State := { initialState with template_stages := ["A", "A"] }

/-- A state with the two distinct stages of a shortened template. -/
def stateTwoStages : State := { initialState with template_stages := ["Engage", "Explore"] }

/-- `stateTwoStages` with the cursor on the last stage. -/
def stateAtLast : State := { stateTwoStages with current_stage := some "Explore" }

/-- A state carrying a lowercase template recommendation. -/
def stateRecPbl : State :=
  { initialState with
      template_recommendation := some { template := "pbl", confidence := 1, rationale := none } }

/-- The recommendation's template name, `rec.get("template", "5E")`. -/
def recTemplateOf (s : State) : String :=
  match s.template_recommendation with
  | some r => r.template
  | none => "5E"

/-- The normalization `stage1_choose_template` applies to whatever name survives the
`or`-default: uppercase, then enum membership with fallback "5E" (lines 119-122). -/
def normalizeTemplate (t : String) : String :=
  if templateEnum.contains (pyUpper t) then pyUpper t else "5E"

/-- The context fields populated by the first stage, bundled for frame statements. -/
def contextPreserved (t s : State) : Prop :=
  t.student_info = s.student_info ∧ t.grade = s.grade ∧ t.subject = s.subject ∧
  t.slos = s.slos ∧ t.pre_slos = s.pre_slos

/-! ### Helper lemmas -/

theorem dictGet_insert_self (d : List (String × List Activity)) (k : String)
    (v : List Activity) : dictGet (dictInsert d k v) k = some v := by
  induction d with
  | nil => simp [dictGet, dictInsert]
  | cons p d ih =>
      by_cases h : (p.1 == k) = true
      · simp [dictInsert, h, dictGet]
      · simp [dictInsert, h, dictGet, ih]

theorem dictGet_insert_ne (d : List (String × List Activity)) (k k' : String)
    (v : List Activity) (h : k' ≠ k) :
    dictGet (dictInsert d k v) k' = dictGet d k' := by
  have hkk : (k == k') = false := by simp [Ne.symm h]
  induction d with
  | nil => simp [dictGet, dictInsert, hkk]
  | cons p d ih =>
      by_cases hp : (p.1 == k) = true
      · have hpk : p.1 = k := eq_of_beq hp
        simp [dictInsert, hp, dictGet, hpk, hkk]
      · by_cases hq : (p.1 == k') = true
        · simp [dictInsert, hp, dictGet, hq]
        · simp [dictInsert, hp, dictGet, hq, ih]

theorem populate_preserves_cursor (actRes : Except ApiError (List Activity))
    (dec : Nat → Bool) (s : State) :
    (stage2_populate_stage actRes dec s).current_stage = s.current_stage := by
  unfold stage2_populate_stage
  split
  · rfl
  · split <;> rfl

theorem populate_preserves_stages (actRes : Except ApiError (List Activity))
    (dec : Nat → Bool) (s : State) :
    (stage2_populate_stage actRes dec s).template_stages = s.template_stages := by
  unfold stage2_populate_stage
  split
  · rfl
  · split <;> rfl

theorem next_preserves_stages (s : State) :
    (stage2_next_stage s).template_stages = s.template_stages := by
  unfold stage2_next_stage
  split
  · split
    · split <;> rfl
    · rfl
  · rfl


theorem next_cursor_formula (s : State) (c : String) (hc : s.current_stage = some c) :
    (stage2_next_stage s).current_stage =
      (if !(c == "") && s.template_stages.contains c then
        if s.template_stages.indexOf c < s.template_stages.length - 1 then
          some (s.template_stages.getD (s.template_stages.indexOf c + 1) "")
        else none
      else none) := by
  unfold stage2_next_stage
  rw [hc]
  split
  · rename_i c2 heq
    injection heq with h2
    subst h2
    split
    · split <;> rfl
    · rfl
  · rename_i heq
    exact Option.noConfusion heq

theorem next_cursor_none (s : State) (hc : s.current_stage = none) :
    (stage2_next_stage s).current_stage = none := by
  unfold stage2_next_stage
  rw [hc]

theorem stageLoop_exit_of_cursor_none (oA : Nat → Except ApiError (List Activity))
    (oD : Nat → Nat → Bool) (k fuel : Nat) (s : State) (h : s.current_stage = none) :
    (stageLoop oA oD k (fuel + 1) s).current_stage = none := by
  have h1 : (stage2_populate_stage (oA k) (oD k) s).current_stage = none := by
    rw [populate_preserves_cursor, h]
  have h2 : (stage2_next_stage (stage2_populate_stage (oA k) (oD k) s)).current_stage = none :=
    next_cursor_none _ h1
  have hcond :
      (should_continue_stages (stage2_next_stage (stage2_populate_stage (oA k) (oD k) s))
        == "continue") = false := by
    simp [should_continue_stages, truthy, h2]
  unfold stageLoop
  rw [if_neg (by simp [hcond])]
  exact h2

theorem stageLoop_exits (oA : Nat → Except ApiError (List Activity)) (oD : Nat → Nat → Bool) :
    ∀ (fuel : Nat) (stages : List String) (i k : Nat) (s : State),
      s.template_stages = stages → stages.Nodup → "" ∉ stages →
      ∀ hi : i < stages.length,
      s.current_stage = some stages[i] →
      stages.length - i ≤ fuel →
      (stageLoop oA oD k fuel s).current_stage = none := by
  intro fuel
  induction fuel with
  | zero =>
      intro stages i k s _ _ _ hi _ hle
      omega
  | succ fuel ih =>
      intro stages i k s hst hnd hne hi hc hle
      have h1c : (stage2_populate_stage (oA k) (oD k) s).current_stage = some stages[i] := by
        rw [populate_preserves_cursor, hc]
      have h1t : (stage2_populate_stage (oA k) (oD k) s).template_stages = stages := by
        rw [populate_preserves_stages, hst]
      have hmemi : stages[i] ∈ stages := List.getElem_mem hi
      have hcne : (stages[i] == "") = false := by
        simp only [beq_eq_false_iff_ne, ne_eq]
        intro hcontra
        exact hne (hcontra ▸ hmemi)
      have hcontains : stages.contains stages[i] = true :=
        List.elem_eq_true_of_mem hmemi
      have hidx : List.indexOf stages[i] stages = i := List.indexOf_getElem hnd i hi
      have h2 : (stage2_next_stage (stage2_populate_stage (oA k) (oD k) s)).current_stage =
          (if i < stages.length - 1 then some (stages.getD (i + 1) "") else none) := by
        rw [next_cursor_formula _ _ h1c, h1t, hidx, hcne]
        simp [hcontains]
      by_cases hlt : i + 1 < stages.length
      · have hlt1 : i < stages.length - 1 := by omega
        have h2c : (stage2_next_stage (stage2_populate_stage (oA k) (oD k) s)).current_stage =
            some stages[i + 1] := by
          rw [h2, if_pos hlt1, List.getD_eq_getElem _ _ hlt]
        have h2t : (stage2_next_stage (stage2_populate_stage (oA k) (oD k) s)).template_stages
            = stages := by rw [next_preserves_stages, h1t]
        have hne2 : (stages[i + 1] == "") = false := by
          simp only [beq_eq_false_iff_ne, ne_eq]
          intro hcontra
          exact hne (hcontra ▸ List.getElem_mem hlt)
        have hcond :
            (should_continue_stages (stage2_next_stage (stage2_populate_stage (oA k) (oD k) s))
              == "continue") = true := by
          simp [should_continue_stages, truthy, h2c, hne2]
        unfold stageLoop
        rw [if_pos hcond]
        exact ih stages (i + 1) (k + 1) _ h2t hnd hne hlt h2c (by omega)
      · have hge : ¬ i < stages.length - 1 := by omega
        have h2c : (stage2_next_stage (stage2_populate_stage (oA k) (oD k) s)).current_stage
            = none := by rw [h2, if_neg hge]
        have hcond :
            (should_continue_stages (stage2_next_stage (stage2_populate_stage (oA k) (oD k) s))
              == "continue") = false := by
          simp [should_continue_stages, truthy, h2c]
        unfold stageLoop
        rw [if_neg (by simp [hcond])]
        exact h2c


theorem stageLoop_dup_cycles (oA : Nat → Except ApiError (List Activity))
    (oD : Nat → Nat → Bool) :
    ∀ (fuel k : Nat) (s : State), s.template_stages = ["A", "B", "A"] →
      (s.current_stage = some "A" ∨ s.current_stage = some "B") →
      ((stageLoop oA oD k fuel s).current_stage = some "A" ∨
       (stageLoop oA oD k fuel s).current_stage = some "B") := by
  intro fuel
  induction fuel with
  | zero =>
      intro k s hst hc
      simpa [stageLoop] using hc
  | succ fuel ih =>
      intro k s hst hc
      have h1t : (stage2_populate_stage (oA k) (oD k) s).template_stages = ["A", "B", "A"] := by
        rw [populate_preserves_stages, hst]
      have h2 : (stage2_next_stage (stage2_populate_stage (oA k) (oD k) s)).current_stage = some "B" ∨
          (stage2_next_stage (stage2_populate_stage (oA k) (oD k) s)).current_stage = some "A" := by
        rcases hc with h | h
        · left
          have h1c : (stage2_populate_stage (oA k) (oD k) s).current_stage = some "A" := by
            rw [populate_preserves_cursor, h]
          rw [next_cursor_formula _ _ h1c, h1t]
          decide
        · right
          have h1c : (stage2_populate_stage (oA k) (oD k) s).current_stage = some "B" := by
            rw [populate_preserves_cursor, h]
          rw [next_cursor_formula _ _ h1c, h1t]
          decide
      have h2t : (stage2_next_stage (stage2_populate_stage (oA k) (oD k) s)).template_stages
          = ["A", "B", "A"] := by rw [next_preserves_stages, h1t]
      have hcond :
          (should_continue_stages (stage2_next_stage (stage2_populate_stage (oA k) (oD k) s))
            == "continue") = true := by
        rcases h2 with h | h <;> simp [should_continue_stages, truthy, h]
      unfold stageLoop
      rw [if_pos hcond]
      exact ih (k + 1) _ h2t (Or.symm h2)

theorem loopTrace_formula (oA : Nat → Except ApiError (List Activity)) (oD : Nat → Nat → Bool) :
    ∀ (fuel : Nat) (stages : List String) (i k : Nat) (s : State),
      s.template_stages = stages → stages.Nodup → "" ∉ stages →
      ∀ hi : i < stages.length,
      s.current_stage = some stages[i] →
      loopTrace oA oD k fuel s = ((stages.drop i).take fuel).map some := by
  intro fuel
  induction fuel with
  | zero =>
      intro stages i k s _ _ _ hi _
      simp [loopTrace]
  | succ fuel ih =>
      intro stages i k s hst hnd hne hi hc
      have h1c : (stage2_populate_stage (oA k) (oD k) s).current_stage = some stages[i] := by
        rw [populate_preserves_cursor, hc]
      have h1t : (stage2_populate_stage (oA k) (oD k) s).template_stages = stages := by
        rw [populate_preserves_stages, hst]
      have hmemi : stages[i] ∈ stages := List.getElem_mem hi
      have hcne : (stages[i] == "") = false := by
        simp only [beq_eq_false_iff_ne, ne_eq]
        intro hcontra
        exact hne (hcontra ▸ hmemi)
      have hcontains : stages.contains stages[i] = true :=
        List.elem_eq_true_of_mem hmemi
      have hidx : List.indexOf stages[i] stages = i := List.indexOf_getElem hnd i hi
      have h2 : (stage2_next_stage (stage2_populate_stage (oA k) (oD k) s)).current_stage =
          (if i < stages.length - 1 then some (stages.getD (i + 1) "") else none) := by
        rw [next_cursor_formula _ _ h1c, h1t, hidx, hcne]
        simp [hcontains]
      have hdrop : stages.drop i = stages[i] :: stages.drop (i + 1) :=
        List.drop_eq_getElem_cons hi
      by_cases hlt : i + 1 < stages.length
      · have hlt1 : i < stages.length - 1 := by omega
        have h2c : (stage2_next_stage (stage2_populate_stage (oA k) (oD k) s)).current_stage =
            some stages[i + 1] := by
          rw [h2, if_pos hlt1, List.getD_eq_getElem _ _ hlt]
        have h2t : (stage2_next_stage (stage2_populate_stage (oA k) (oD k) s)).template_stages
            = stages := by rw [next_preserves_stages, h1t]
        have hne2 : (stages[i + 1] == "") = false := by
          simp only [beq_eq_false_iff_ne, ne_eq]
          intro hcontra
          exact hne (hcontra ▸ List.getElem_mem hlt)
        have hcond :
            (should_continue_stages (stage2_next_stage (stage2_populate_stage (oA k) (oD k) s))
              == "continue") = true := by
          simp [should_continue_stages, truthy, h2c, hne2]
        unfold loopTrace
        rw [if_pos hcond, ih stages (i + 1) (k + 1) _ h2t hnd hne hlt h2c, hc, hdrop,
          List.take_succ_cons, List.map_cons]
      · have hge : ¬ i < stages.length - 1 := by omega
        have h2c : (stage2_next_stage (stage2_populate_stage (oA k) (oD k) s)).current_stage
            = none := by rw [h2, if_neg hge]
        have hcond :
            (should_continue_stages (stage2_next_stage (stage2_populate_stage (oA k) (oD k) s))
              == "continue") = false := by
          simp [should_continue_stages, truthy, h2c]
        have hdropnil : stages.drop (i + 1) = [] :=
          List.drop_eq_nil_of_le (by omega)
        unfold loopTrace
        rw [if_neg (by simp [hcond]), hc, hdrop, hdropnil, List.take_succ_cons, List.take_nil,
          List.map_cons, List.map_nil]

theorem loopTrace_of_cursor_none (oA : Nat → Except ApiError (List Activity))
    (oD : Nat → Nat → Bool) (k fuel : Nat) (s : State) (h : s.current_stage = none) :
    loopTrace oA oD k (fuel + 1) s = [none] := by
  have h1 : (stage2_populate_stage (oA k) (oD k) s).current_stage = none := by
    rw [populate_preserves_cursor, h]
  have h2 : (stage2_next_stage (stage2_populate_stage (oA k) (oD k) s)).current_stage = none :=
    next_cursor_none _ h1
  have hcond :
      (should_continue_stages (stage2_next_stage (stage2_populate_stage (oA k) (oD k) s))
        == "continue") = false := by
    simp [should_continue_stages, truthy, h2]
  unfold loopTrace
  rw [if_neg (by simp [hcond]), h]

theorem next_cursor_mem (s : State) :
    (stage2_next_stage s).current_stage = none ∨
    ∃ nm, (stage2_next_stage s).current_stage = some nm ∧ nm ∈ s.template_stages := by
  cases hc : s.current_stage with
  | none => exact Or.inl (next_cursor_none s hc)
  | some c =>
      rw [next_cursor_formula s c hc]
      by_cases h1 : (!(c == "") && s.template_stages.contains c) = true
      · by_cases h2 : List.indexOf c s.template_stages < s.template_stages.length - 1
        · right
          refine ⟨s.template_stages.getD (List.indexOf c s.template_stages + 1) "",
            by rw [if_pos h1, if_pos h2], ?_⟩
          have hmem : c ∈ s.template_stages := by
            rw [Bool.and_eq_true] at h1
            exact List.mem_of_elem_eq_true h1.2
          have hlt : List.indexOf c s.template_stages < s.template_stages.length :=
            List.indexOf_lt_length.2 hmem
          have hlt2 : List.indexOf c s.template_stages + 1 < s.template_stages.length := by
            omega
          rw [List.getD_eq_getElem _ _ hlt2]
          exact List.getElem_mem hlt2
        · left
          rw [if_pos h1, if_neg h2]
      · left
        rw [if_neg h1]

theorem loopTrace_mem_stages (oA : Nat → Except ApiError (List Activity))
    (oD : Nat → Nat → Bool) :
    ∀ (fuel k : Nat) (s : State) (stages : List String),
      s.template_stages = stages →
      (s.current_stage = none ∨ ∃ nm, s.current_stage = some nm ∧ nm ∈ stages) →
      ∀ c ∈ loopTrace oA oD k fuel s,
        c = none ∨ ∃ nm, c = some nm ∧ nm ∈ stages := by
  intro fuel
  induction fuel with
  | zero =>
      intro k s stages _ _ c hcmem
      simp [loopTrace] at hcmem
  | succ fuel ih =>
      intro k s stages hst hcur c hcmem
      unfold loopTrace at hcmem
      rcases List.mem_cons.mp hcmem with hhead | htail
      · exact hhead ▸ hcur
      · by_cases hcond :
            (should_continue_stages (stage2_next_stage (stage2_populate_stage (oA k) (oD k) s))
              == "continue") = true
        · rw [if_pos hcond] at htail
          have h1t : (stage2_populate_stage (oA k) (oD k) s).template_stages = stages := by
            rw [populate_preserves_stages, hst]
          have h2t : (stage2_next_stage (stage2_populate_stage (oA k) (oD k) s)).template_stages
              = stages := by rw [next_preserves_stages, h1t]
          have h2cur := next_cursor_mem (stage2_populate_stage (oA k) (oD k) s)
          rw [h1t] at h2cur
          exact ih (k + 1) _ stages h2t h2cur c htail
        · rw [if_neg hcond] at htail
          simp at htail


end Edteck

namespace Edteck

/-! ### Claim theorems -/

/-- C1: `stage3_check_completion` sets `is_complete` to true if and only if
`template_stages` is non-empty and every stage name in it is a key of
`stage_activities` mapped to a non-empty sequence; in particular the result is
false for an empty `template_stages` and false when some stage has no entry or
an empty entry. -/
theorem check_completion_iff_nonempty_and_all_filled (s : State) :
    (stage3_check_completion s).is_complete = true ↔
      (s.template_stages ≠ [] ∧
        ∀ st ∈ s.template_stages,
          ∃ l, dictGet s.stage_activities st = some l ∧ l ≠ []) := by
  have hred : (stage3_check_completion s).is_complete
      = (!s.template_stages.isEmpty &&
        s.template_stages.all (fun st => match dictGet s.stage_activities st with
          | some l => !l.isEmpty
          | none => false)) := rfl
  rw [hred, Bool.and_eq_true, List.all_eq_true]
  constructor
  · rintro ⟨h1, h2⟩
    refine ⟨by simpa using h1, ?_⟩
    intro st hst
    have h3 := h2 st hst
    rcases hget : dictGet s.stage_activities st with _ | l
    · simp only [hget] at h3
      exact Bool.noConfusion h3
    · simp only [hget] at h3
      exact ⟨l, rfl, by simpa using h3⟩
  · rintro ⟨h1, h2⟩
    refine ⟨by simpa using h1, ?_⟩
    intro st hst
    rcases h2 st hst with ⟨l, hget, hl⟩
    simp only [hget]
    simpa using hl

/-- C3 counterexample: a `NotFoundError` from the collaborator is NOT propagated —
`stage1_fetch_context` recovers it by installing only the placeholder catalog, and
`init_template` recovers it by substituting the hardcoded 5E stage list, so the
run continues with a populated state instead of failing. -/
theorem notfound_not_propagated_counterexample :
    stage1_fetch_context (Except.error ApiError.notFound) initialState
      = { initialState with template_options := templateCatalog } ∧
    init_template (Except.error ApiError.notFound)
        { initialState with chosen_template := some "5E" }
      = { initialState with
            chosen_template := some "5E",
            template_stages := ["Engage", "Explore", "Explain", "Elaborate", "Evaluate"] } := by
  exact ⟨rfl, by decide⟩

/-- C3 (amended): every collaborator error — `NotFoundError` included — is caught
inside the stage by `except Exception` and recovered locally by default
substitution, exactly like `CollaboratorUnavailable`: no error reaches the
caller, who gets a populated state. -/
theorem notfound_recovered_by_defaults (e : ApiError) (s : State) :
    stage1_fetch_context (Except.error e) s = { s with template_options := templateCatalog } ∧
    init_template (Except.error e) s
      = { s with template_stages := fallbackStages (s.chosen_template.getD "5E") } := by
  exact ⟨rfl, rfl⟩

/-- C5: if the ExternalReasoner call of the template-recommendation stage fails
(timeout or any other collaborator error), the stage returns the prior state with
`template_recommendation` set to the documented default record (template "5E",
confidence 0); the stage is a total function, so no exception escapes to the
caller. -/
theorem recommend_failure_yields_default (e : ApiError) (s : State) :
    stage1_recommend_template (Except.error e) s
      = { s with
            template_recommendation :=
              some { template := "5E", confidence := 0, rationale := none } } := rfl

/-- C6: a human override whose normalization (strip, uppercase) is not one of the
enum values 5E / 7E / PBL / DYNAMIC makes `stage1_choose_template` fall back to
"5E"; consequently the chosen template is always a member of the enum. -/
theorem choose_template_always_enum (inp : String) (s : State) :
    (∃ t, (stage1_choose_template inp s).chosen_template = some t ∧ t ∈ templateEnum) ∧
    (pyStrip inp ≠ "" → pyUpper (pyStrip inp) ∉ templateEnum →
      (stage1_choose_template inp s).chosen_template = some "5E") := by
  have hform : (stage1_choose_template inp s).chosen_template
      = some (if templateEnum.contains
                (pyUpper (if pyStrip inp == "" then recTemplateOf s else pyStrip inp))
              then pyUpper (if pyStrip inp == "" then recTemplateOf s else pyStrip inp)
              else "5E") := rfl
  constructor
  · by_cases hc : templateEnum.contains
        (pyUpper (if pyStrip inp == "" then recTemplateOf s else pyStrip inp)) = true
    · exact ⟨_, by rw [hform, if_pos hc], List.mem_of_elem_eq_true hc⟩
    · exact ⟨"5E", by rw [hform, if_neg hc], by decide⟩
  · intro hne hnot
    have h0 : ¬ ((pyStrip inp == "") = true) := by simp [hne]
    have hcontains : ¬ (templateEnum.contains (pyUpper (pyStrip inp)) = true) := by
      intro hcon
      exact hnot (List.mem_of_elem_eq_true hcon)
    rw [hform, if_neg h0, if_neg hcontains]

/-- C6 witness: the override "XYZ" is normalized to "XYZ", is outside the enum,
and resolves to "5E". -/
theorem choose_template_always_enum_witness :
    (stage1_choose_template "XYZ" initialState).chosen_template = some "5E" :=
  (choose_template_always_enum "XYZ" initialState).2 (by decide) (by decide)

/-- C7 counterexample: with the duplicate sequence ["A", "B", "A"] and the cursor
equal to the last element "A", advance-stage uses the FIRST index of "A" and
moves to "B", and the branch predicate selects "continue", not the completion
branch — refuting the claim for states whose cursor value recurs earlier. -/
theorem advance_at_last_element_counterexample :
    stateDupABA.template_stages.getLast? = some "A" ∧
    stateDupABA.current_stage = some "A" ∧
    (stage2_next_stage stateDupABA).current_stage = some "B" ∧
    should_continue_stages (stage2_next_stage stateDupABA) = "continue" := by decide

/-- C7 (amended): whenever the FIRST index of the (non-empty-string) cursor in
`template_stages` is the last index — which for duplicate-free sequences means
the cursor equals the last element — advance-stage clears the cursor and the
branch predicate selects the completion branch. -/
theorem advance_at_last_index_completes (s : State) (c : String)
    (hc : s.current_stage = some c) (hne : c ≠ "")
    (hmem : c ∈ s.template_stages)
    (hidx : List.indexOf c s.template_stages = s.template_stages.length - 1) :
    (stage2_next_stage s).current_stage = none ∧
    should_continue_stages (stage2_next_stage s) = "complete" := by
  have hcb : (c == "") = false := by simp [hne]
  have hcon : s.template_stages.contains c = true := List.elem_eq_true_of_mem hmem
  have hlt : ¬ List.indexOf c s.template_stages < s.template_stages.length - 1 := by omega
  have hcur : (stage2_next_stage s).current_stage = none := by
    rw [next_cursor_formula s c hc, hcb]
    simp [hcon, hlt]
  exact ⟨hcur, by simp [should_continue_stages, truthy, hcur]⟩

/-- C7 witness: with stages ["Engage", "Explore"] and cursor "Explore" (index 1 =
last index), advance-stage yields a null cursor and the branch completes. -/
theorem advance_at_last_index_completes_witness :
    (stage2_next_stage stateAtLast).current_stage = none ∧
    should_continue_stages (stage2_next_stage stateAtLast) = "complete" :=
  advance_at_last_index_completes stateAtLast "Explore" (by decide) (by decide)
    (by decide) (by decide)

/-- C10 counterexample: with an empty human input and a recommendation whose
template is the lowercase "pbl", the chosen template is the normalized "PBL",
not the recommended value itself — refuting the claim's clause that the
recommended template is used verbatim. -/
theorem choose_template_empty_input_counterexample :
    recTemplateOf stateRecPbl = "pbl" ∧
    (stage1_choose_template "" stateRecPbl).chosen_template = some "PBL" ∧
    (stage1_choose_template "" stateRecPbl).chosen_template ≠ some "pbl" := by decide

/-- C10 (amended): `stage1_choose_template` normalizes case-insensitively — a
non-empty input whose strip-and-uppercase form is in the enum is chosen in that
uppercased form; an empty or whitespace-only input falls back to the recommended
template, itself normalized (uppercased, validated against the enum with "5E"
fallback, and "5E" when no recommendation is present). -/
theorem choose_template_normalizes (inp : String) (s : State) :
    (pyStrip inp ≠ "" → pyUpper (pyStrip inp) ∈ templateEnum →
      (stage1_choose_template inp s).chosen_template = some (pyUpper (pyStrip inp))) ∧
    (pyStrip inp = "" →
      (stage1_choose_template inp s).chosen_template
        = some (normalizeTemplate (recTemplateOf s))) := by
  have hform : (stage1_choose_template inp s).chosen_template
      = some (if templateEnum.contains
                (pyUpper (if pyStrip inp == "" then recTemplateOf s else pyStrip inp))
              then pyUpper (if pyStrip inp == "" then recTemplateOf s else pyStrip inp)
              else "5E") := rfl
  constructor
  · intro hne hmem
    have h0 : ¬ ((pyStrip inp == "") = true) := by simp [hne]
    have hcon : templateEnum.contains (pyUpper (pyStrip inp)) = true :=
      List.elem_eq_true_of_mem hmem
    rw [hform, if_neg h0, if_pos hcon]
  · intro hempty
    have h0 : (pyStrip inp == "") = true := by simp [hempty]
    rw [hform, if_pos h0]
    rfl

/-- C10 witness: " pbl " is chosen as "PBL", and empty input with the lowercase
recommendation "pbl" resolves to its normalization. -/
theorem choose_template_normalizes_witness :
    (stage1_choose_template " pbl " initialState).chosen_template = some "PBL" ∧
    (stage1_choose_template "" stateRecPbl).chosen_template
      = some (normalizeTemplate (recTemplateOf stateRecPbl)) := by
  constructor
  · have h := (choose_template_normalizes " pbl " initialState).1 (by decide) (by decide)
    rw [h]
    decide
  · exact (choose_template_normalizes "" stateRecPbl).2 (by decide)

end Edteck

namespace Edteck

/-- C2 counterexample: the human adjustment step can install the duplicate stage
sequence ["A", "B", "A"], and on it the populate / advance loop never reaches a
null cursor — `stages.index` always finds the FIRST occurrence, so the cursor
cycles between "A" and "B" for every amount of fuel and the completion branch is
never selected. -/
theorem run_diverges_on_duplicate_stages :
    (stage2_template_adjustment "y" "A,B,A" initialState).template_stages = ["A", "B", "A"] ∧
    ¬ ∃ n, (runStages oracleEmpty approveAll n
        (stage2_template_adjustment "y" "A,B,A" initialState)).current_stage = none := by
  constructor
  · decide
  · rintro ⟨n, hn⟩
    have hcyc := stageLoop_dup_cycles oracleEmpty approveAll n 0
      (stage2_prepare_stages (stage2_template_adjustment "y" "A,B,A" initialState))
      (by decide) (Or.inl (by decide))
    unfold runStages at hn
    rcases hcyc with h | h <;> rw [hn] at h <;> exact Option.noConfusion h

/-- C2 (amended): for every state whose `template_stages` has pairwise-distinct,
non-empty stage names — true of every built-in template sequence — the stage loop
terminates: `length + 1` iterations suffice to clear the cursor, after which the
conditional edge selects the completion branch. -/
theorem run_terminates_of_nodup_stages (s : State)
    (oA : Nat → Except ApiError (List Activity)) (oD : Nat → Nat → Bool)
    (hnd : s.template_stages.Nodup) (hne : "" ∉ s.template_stages) :
    (runStages oA oD (s.template_stages.length + 1) s).current_stage = none ∧
    should_continue_stages (runStages oA oD (s.template_stages.length + 1) s)
      = "complete" := by
  have hmain : (runStages oA oD (s.template_stages.length + 1) s).current_stage = none := by
    unfold runStages
    rcases hstages : s.template_stages with _ | ⟨a, rest⟩
    · apply stageLoop_exit_of_cursor_none
      show s.template_stages.head? = none
      rw [hstages]
      rfl
    · have hst2 : (stage2_prepare_stages s).template_stages = a :: rest := hstages
      have h0 : 0 < (a :: rest).length := Nat.succ_pos _
      have hc2 : (stage2_prepare_stages s).current_stage = some ((a :: rest)[0]) := by
        show s.template_stages.head? = some ((a :: rest)[0])
        rw [hstages]
        rfl
      exact stageLoop_exits oA oD ((a :: rest).length + 1) (a :: rest) 0 0
        (stage2_prepare_stages s) hst2 (hstages ▸ hnd) (hstages ▸ hne) h0 hc2
        (by omega)
  exact ⟨hmain, by simp [should_continue_stages, truthy, hmain]⟩

/-- C2 witness: on the duplicate-free two-stage sequence of `stateTwoStages` the
loop clears the cursor within three iterations and routes to completion. -/
theorem run_terminates_of_nodup_stages_witness :
    (runStages oracleEmpty approveAll (stateTwoStages.template_stages.length + 1)
        stateTwoStages).current_stage = none ∧
    should_continue_stages (runStages oracleEmpty approveAll
        (stateTwoStages.template_stages.length + 1) stateTwoStages) = "complete" :=
  run_terminates_of_nodup_stages stateTwoStages oracleEmpty approveAll
    (by decide) (by decide)

/-- C4 counterexample: with the duplicate sequence ["A", "A"], the run populates
the stage name "A" twice — the entry first holds the approved sample activity,
and the second populate call REPLACES it with the empty list, so a key's entry is
rewritten during the run. -/
theorem stage_content_rewritten_on_duplicates :
    dictGet (runStages oracleOne approveFirstOnly 1 stateDupAA).stage_activities "A"
      = some [sampleActivity] ∧
    dictGet (runStages oracleOne approveFirstOnly 2 stateDupAA).stage_activities "A"
      = some [] := by decide

/-- C4 (amended): populate-stage writes exactly the approved subset under the
current cursor's name and leaves every other key untouched; and when
`template_stages` is duplicate-free (with non-empty names), the loop's populate
calls see pairwise-distinct cursors, so each stage name is written at most once
per run. (With duplicate stage names a key is rewritten on each revisit.) -/
theorem stage_content_write_once_of_nodup :
    (∀ (actRes : Except ApiError (List Activity)) (dec : Nat → Bool) (t : State) (k : String),
        t.current_stage ≠ some k →
        dictGet (stage2_populate_stage actRes dec t).stage_activities k
          = dictGet t.stage_activities k) ∧
    (∀ (actRes : Except ApiError (List Activity)) (dec : Nat → Bool) (t : State) (c : String),
        t.current_stage = some c → c ≠ "" →
        dictGet (stage2_populate_stage actRes dec t).stage_activities c
          = some (approvedOf actRes dec c)) ∧
    (∀ (s : State) (oA : Nat → Except ApiError (List Activity)) (oD : Nat → Nat → Bool)
        (fuel : Nat), s.template_stages.Nodup → "" ∉ s.template_stages →
        (runTrace oA oD fuel s).Nodup) := by
  refine ⟨?_, ?_, ?_⟩
  · intro actRes dec t k hk
    unfold stage2_populate_stage
    split
    · rfl
    · rename_i c heq
      split
      · rfl
      · have hkc : k ≠ c := fun h => hk (by rw [heq, h])
        exact dictGet_insert_ne _ _ _ _ hkc
  · intro actRes dec t c hc hcne
    unfold stage2_populate_stage
    split
    · rename_i heq
      rw [heq] at hc
      exact Option.noConfusion hc
    · rename_i c2 heq
      rw [heq] at hc
      injection hc with hcc
      subst hcc
      split
      · rename_i hce
        exact absurd (eq_of_beq hce) hcne
      · exact dictGet_insert_self _ _ _
  · intro s oA oD fuel hnd hne
    unfold runTrace
    rcases hstages : s.template_stages with _ | ⟨a, rest⟩
    · have hcur : (stage2_prepare_stages s).current_stage = none := by
        show s.template_stages.head? = none
        rw [hstages]
        rfl
      cases fuel with
      | zero => simp [loopTrace]
      | succ fuel =>
          rw [loopTrace_of_cursor_none oA oD 0 fuel _ hcur]
          simp
    · have hst2 : (stage2_prepare_stages s).template_stages = a :: rest := hstages
      have h0 : 0 < (a :: rest).length := Nat.succ_pos _
      have hc2 : (stage2_prepare_stages s).current_stage = some ((a :: rest)[0]) := by
        show s.template_stages.head? = some ((a :: rest)[0])
        rw [hstages]
        rfl
      rw [loopTrace_formula oA oD fuel (a :: rest) 0 0 _ hst2 (hstages ▸ hnd)
        (hstages ▸ hne) h0 hc2]
      simp only [List.drop_zero]
      exact ((hstages ▸ hnd).sublist (List.take_sublist _ _)).map (Option.some_injective _)

/-- C4 witness: populate writes the approved subset under the cursor "Engage",
leaves the unrelated key "Other" unchanged, and on the duplicate-free two-stage
state the populate-call cursor trace has no repeats. -/
theorem stage_content_write_once_of_nodup_witness :
    dictGet (stage2_populate_stage (Except.ok [sampleActivity]) (fun _ => true)
        { initialState with current_stage := some "Engage" }).stage_activities "Engage"
      = some (approvedOf (Except.ok [sampleActivity]) (fun _ => true) "Engage") ∧
    dictGet (stage2_populate_stage (Except.ok [sampleActivity]) (fun _ => true)
        { initialState with current_stage := some "Engage" }).stage_activities "Other"
      = dictGet ({ initialState with
          current_stage := some "Engage" } : State).stage_activities "Other" ∧
    (runTrace oracleEmpty approveAll 3 stateTwoStages).Nodup := by
  refine ⟨?_, ?_, ?_⟩
  · exact stage_content_write_once_of_nodup.2.1 (Except.ok [sampleActivity]) (fun _ => true)
      { initialState with current_stage := some "Engage" } "Engage" (by decide) (by decide)
  · exact stage_content_write_once_of_nodup.1 (Except.ok [sampleActivity]) (fun _ => true)
      { initialState with current_stage := some "Engage" } "Other" (by decide)
  · exact stage_content_write_once_of_nodup.2.2 stateTwoStages oracleEmpty approveAll 3
      (by decide) (by decide)

/-- C8: answering "y" to the adjustment prompt makes the supplied comma-separated
list wholesale replace `template_stages`, independent of the prior sequence; and
in the subsequent prepare / populate / advance loop every populate call's cursor
is either null or a member of the new sequence — never an element that existed
only in the replaced one. -/
theorem adjustment_overwrites_stage_sequence (ans raw : String) (s : State)
    (oA : Nat → Except ApiError (List Activity)) (oD : Nat → Nat → Bool) (fuel : Nat)
    (hy : pyLower (pyStrip ans) = "y") :
    (stage2_template_adjustment ans raw s).template_stages = parseStages raw ∧
    ∀ c ∈ runTrace oA oD fuel (stage2_template_adjustment ans raw s),
      c = none ∨ ∃ nm, c = some nm ∧ nm ∈ parseStages raw := by
  have hb : (pyLower (pyStrip ans) == "y") = true := by simp [hy]
  have hrepl : (stage2_template_adjustment ans raw s).template_stages = parseStages raw := by
    unfold stage2_template_adjustment
    rw [if_pos hb]
  refine ⟨hrepl, ?_⟩
  unfold runTrace
  apply loopTrace_mem_stages oA oD fuel 0 _ (parseStages raw)
  · show (stage2_template_adjustment ans raw s).template_stages = parseStages raw
    exact hrepl
  · rcases hh : (stage2_template_adjustment ans raw s).template_stages.head? with _ | nm
    · left
      show (stage2_template_adjustment ans raw s).template_stages.head? = none
      exact hh
    · right
      refine ⟨nm, hh, ?_⟩
      have hmem : nm ∈ (stage2_template_adjustment ans raw s).template_stages :=
        List.mem_of_mem_head? (by rw [hh]; rfl)
      rw [hrepl] at hmem
      exact hmem

/-- C8 witness: replacing the stages with "X,Y" installs ["X", "Y"], and every
cursor the loop's populate calls see on the replaced state is in the new list. -/
theorem adjustment_overwrites_stage_sequence_witness :
    (stage2_template_adjustment "y" "X,Y" stateTwoStages).template_stages
      = parseStages "X,Y" ∧
    (some "X" = none ∨ ∃ nm, some "X" = some nm ∧ nm ∈ parseStages "X,Y") := by
  refine ⟨(adjustment_overwrites_stage_sequence "y" "X,Y" stateTwoStages oracleEmpty
    approveAll 3 (by decide)).1, ?_⟩
  exact (adjustment_overwrites_stage_sequence "y" "X,Y" stateTwoStages oracleEmpty
    approveAll 3 (by decide)).2 (some "X") (by decide)

/-- C9: every stage function of the workflow returns a state with the same
`student_id` as its input, and every stage function other than the
context-fetching one also preserves the context fields `student_info`, `grade`,
`subject`, `slos` and `pre_slos` — they are populated once by the first stage and
read-only afterwards. -/
theorem stage_units_preserve_identity_and_context :
    (∀ (r : Except ApiError Context) (s : State),
        (stage1_fetch_context r s).student_id = s.student_id) ∧
    (∀ (r : Except ApiError Recommendation) (s : State),
        (stage1_recommend_template r s).student_id = s.student_id ∧
        contextPreserved (stage1_recommend_template r s) s) ∧
    (∀ (inp : String) (s : State),
        (stage1_choose_template inp s).student_id = s.student_id ∧
        contextPreserved (stage1_choose_template inp s) s) ∧
    (∀ (r : Except ApiError (List String)) (s : State),
        (init_template r s).student_id = s.student_id ∧
        contextPreserved (init_template r s) s) ∧
    (∀ (ans : String) (s : State),
        (stage2_template_approval ans s).student_id = s.student_id ∧
        contextPreserved (stage2_template_approval ans s) s) ∧
    (∀ (ans raw : String) (s : State),
        (stage2_template_adjustment ans raw s).student_id = s.student_id ∧
        contextPreserved (stage2_template_adjustment ans raw s) s) ∧
    (∀ s : State, (stage2_prepare_stages s).student_id = s.student_id ∧
        contextPreserved (stage2_prepare_stages s) s) ∧
    (∀ (actRes : Except ApiError (List Activity)) (dec : Nat → Bool) (s : State),
        (stage2_populate_stage actRes dec s).student_id = s.student_id ∧
        contextPreserved (stage2_populate_stage actRes dec s) s) ∧
    (∀ s : State, (stage2_next_stage s).student_id = s.student_id ∧
        contextPreserved (stage2_next_stage s) s) ∧
    (∀ s : State, (stage3_check_completion s).student_id = s.student_id ∧
        contextPreserved (stage3_check_completion s) s) ∧
    (∀ s : State, (stage3_generate_output s).student_id = s.student_id ∧
        contextPreserved (stage3_generate_output s) s) := by
  refine ⟨?_, ?_, ?_, ?_, ?_, ?_, ?_, ?_, ?_, ?_, ?_⟩
  · intro r s
    cases r <;> rfl
  · intro r s
    cases r <;> exact ⟨rfl, rfl, rfl, rfl, rfl, rfl⟩
  · intro inp s
    exact ⟨rfl, rfl, rfl, rfl, rfl, rfl⟩
  · intro r s
    cases r <;> exact ⟨rfl, rfl, rfl, rfl, rfl, rfl⟩
  · intro ans s
    exact ⟨rfl, rfl, rfl, rfl, rfl, rfl⟩
  · intro ans raw s
    unfold stage2_template_adjustment
    split <;> exact ⟨rfl, rfl, rfl, rfl, rfl, rfl⟩
  · intro s
    exact ⟨rfl, rfl, rfl, rfl, rfl, rfl⟩
  · intro actRes dec s
    unfold stage2_populate_stage
    split
    · exact ⟨rfl, rfl, rfl, rfl, rfl, rfl⟩
    · split <;> exact ⟨rfl, rfl, rfl, rfl, rfl, rfl⟩
  · intro s
    unfold stage2_next_stage
    split
    · split
      · split <;> exact ⟨rfl, rfl, rfl, rfl, rfl, rfl⟩
      · exact ⟨rfl, rfl, rfl, rfl, rfl, rfl⟩
    · exact ⟨rfl, rfl, rfl, rfl, rfl, rfl⟩
  · intro s
    exact ⟨rfl, rfl, rfl, rfl, rfl, rfl⟩
  · intro s
    exact ⟨rfl, rfl, rfl, rfl, rfl, rfl⟩

end Edteck
